import Mathlib

/-!
Verification of the DAYN voice-dialogue session core.

Shallow embedding of selected components of the Go sources:
  * `src/core/transport/mqtt/udp_crypto.go`  (AES-CTR packet crypto)
  * `src/core/transport/mqtt/udp_session.go` (per-session decrypt and sequence check)
  * the MQTT UDP server packet loop (`processPacket`)
  * `src/core/chat/dialogue_manager.go` plus the Postgres memory backend
  * `src/core/connection.go` (chat handling, quick reply, TTS pipeline)
  * the per-session VAD state and `processAudioWithVAD`
  * `src/core/transport/websocket/transport.go` (JWT auth gate)

Go byte slices and Go strings are modelled as `List Nat` of byte values;
`len` is list length and slicing is `take`/`drop`.  External collaborators
(the AES block permutation, the TTS provider, the recognizer, the random
picker) are parameters of the model, so every theorem quantifies over their
behaviour.
-/

namespace DAYN

/-- A Go byte string / byte slice: a list of byte values. -/
abbrev GoStr := List Nat

/-- Big-endian interpretation of a byte slice (binary.BigEndian.UintNN). -/
def beNat (b : GoStr) : Nat :=
  b.foldl (fun a x => a * 256 + x) 0

/-- Big-endian encoding of `n` on `w` bytes (low bytes last). -/
def natToBE : Nat → Nat → GoStr
  | 0, _ => []
  | w + 1, n => natToBE w (n / 256) ++ [n % 256]

/-! ## udp_crypto.go: AES-CTR

`EncryptAESCTR` checks that nonce and key are 16 bytes, builds the AES-128
cipher (`aes.NewCipher` cannot fail on a 16-byte key) and XORs the input with
the CTR keystream.  The AES block permutation itself is an external primitive:
the model takes it as a parameter `B : key → counterBlock → keystreamBlock`,
and every theorem below holds for an arbitrary `B`.  Go's `cipher.NewCTR`
produces keystream block `j` by applying the block cipher to the nonce viewed
as a 128-bit big-endian counter incremented by `j`. -/

/-- Byte `i` of the CTR keystream for block function `B`, key and 16-byte
counter seed `nonce`. -/
def ctrKeystreamByte (B : GoStr → GoStr → GoStr) (key nonce : GoStr) (i : Nat) : Nat :=
  (B key (natToBE 16 ((beNat nonce + i / 16) % 2 ^ 128))).getD (i % 16) 0

/-- XOR a byte list with keystream `ks`, starting at stream position `i`. -/
def ctrXorFrom (ks : Nat → Nat) : Nat → GoStr → GoStr
  | _, [] => []
  | i, b :: bs => (b ^^^ ks i) :: ctrXorFrom ks (i + 1) bs

/-- EncryptAESCTR (udp_crypto.go): length checks, then CTR keystream XOR. -/
def EncryptAESCTR (B : GoStr → GoStr → GoStr) (nonce key plaintext : GoStr) :
    Except String GoStr :=
  if nonce.length ≠ 16 then .error "nonce length must be 16 bytes"
  else if key.length ≠ 16 then .error "key length must be 16 bytes"
  else .ok (ctrXorFrom (ctrKeystreamByte B key nonce) 0 plaintext)

/-- DecryptAESCTR (udp_crypto.go): in CTR mode decryption is encryption. -/
def DecryptAESCTR (B : GoStr → GoStr → GoStr) (nonce key ciphertext : GoStr) :
    Except String GoStr :=
  EncryptAESCTR B nonce key ciphertext

/-- ExtractNonceInfo (udp_crypto.go): returns (connID, seq, dataLen) read from
the 16-byte nonce: dataLen big-endian at bytes 2..3, connID at 4..7, seq
big-endian at 12..15. -/
def ExtractNonceInfo (nonce : GoStr) : Except String (GoStr × Nat × Nat) :=
  if nonce.length < 16 then .error "nonce shorter than 16 bytes"
  else .ok ((nonce.drop 4).take 4, beNat ((nonce.drop 12).take 4),
            beNat ((nonce.drop 2).take 2))

/-- BuildFullNonce (udp_crypto.go). -/
def BuildFullNonce (nonceTemplate : GoStr) (dataLen seq : Nat) : GoStr :=
  [1, 0] ++ natToBE 2 dataLen ++ nonceTemplate.take 8 ++ natToBE 4 seq

/-! ## udp_session.go: UDPSession and Decrypt -/

/-- The mutable part of a UDP session (udp_session.go).  `recvQueue` models the
contents of `RecvChannel` (capacity 100), from which the recognizer reads. -/
structure UDPSession where
  connID : String
  deviceID : String
  sessionID : String
  aesKey : GoStr
  nonceTemplate : GoStr
  status : String
  localSeq : Nat
  remoteSeq : Nat
  remoteAddr : Option String
  recvQueue : List GoStr
  sendQueue : List GoStr
deriving DecidableEq

/-- NewUDPSession (udp_session.go); `aes.NewCipher` cannot fail on the 16-byte
key, so the error branch is dead and the model returns the session directly. -/
def newUDPSession (deviceID sessionID : String) (aesKey nonceTemplate : GoStr)
    (connID : String) : UDPSession :=
  { connID := connID, deviceID := deviceID, sessionID := sessionID,
    aesKey := aesKey, nonceTemplate := nonceTemplate, status := "active",
    localSeq := 0, remoteSeq := 0, remoteAddr := none,
    recvQueue := [], sendQueue := [] }

/-- Sequence number carried by a packet: big-endian bytes 12..15 of its
16-byte nonce header. -/
def packetSeq (packet : GoStr) : Nat :=
  beNat (((packet.take 16).drop 12).take 4)

/-- Declared payload length carried by a packet: big-endian bytes 2..3 of its
nonce header. -/
def packetDataLen (packet : GoStr) : Nat :=
  beNat (((packet.take 16).drop 2).take 2)

/-- UDPSession.Decrypt (udp_session.go lines 95-137): length guard, closed
guard, nonce parse, declared-length check, then the anti-replay check
`s.RemoteSeq > 0 && seq < s.RemoteSeq`; on pass, `RemoteSeq` is assigned before
AES-CTR decryption.  Returns the Go `(result, err)` pair as an `Except`
together with the updated session. -/
def UDPSession.decrypt (B : GoStr → GoStr → GoStr) (s : UDPSession)
    (packet : GoStr) : Except String GoStr × UDPSession :=
  if packet.length < 16 then (.error "packet shorter than 16 bytes", s)
  else if s.status ≠ "active" then (.error "session closed", s)
  else
    match ExtractNonceInfo (packet.take 16) with
    | .error e => (.error e, s)
    | .ok (_, seq, dataLen) =>
      if dataLen ≠ (packet.drop 16).length then (.error "data length mismatch", s)
      else if 0 < s.remoteSeq ∧ seq < s.remoteSeq then
        (.error "invalid sequence number", s)
      else
        match DecryptAESCTR B (packet.take 16) s.aesKey (packet.drop 16) with
        | .error e => (.error e, { s with remoteSeq := seq })
        | .ok d => (.ok d, { s with remoteSeq := seq })

/-- Remote-address learning step of `processPacket`: record the address on
first contact, refresh it when the device address changed. -/
def updateRemoteAddr (s : UDPSession) (addr : String) : UDPSession :=
  match s.remoteAddr with
  | none => { s with remoteAddr := some addr }
  | some old => if old ≠ addr then { s with remoteAddr := some addr } else s

/-- Strip of the optional 16-byte inner nonce header from a decrypted UDP
payload, as done at the end of `processPacket`. -/
def stripInnerHeader (d : GoStr) : GoStr :=
  if 16 ≤ d.length ∧ d.getD 0 0 = 1 then d.drop 16 else d

/-- UDPServer.processPacket (MQTT UDP server): type-byte gate, nonce parse,
remote-address learning, session decrypt, decrypted-length check, optional
inner-header strip, then non-blocking delivery into the session receive
channel (capacity 100), which is what the recognizer consumes.  The
`conn_id → session` lookup is modelled by passing the resolved session `s`;
packets whose conn_id resolves to no session are dropped before this point.
Returns the updated session and the list of payloads delivered. -/
def processPacket (B : GoStr → GoStr → GoStr) (s : UDPSession) (addr : String)
    (data : GoStr) : UDPSession × List GoStr :=
  if data.length < 16 then (s, [])
  else if data.getD 0 0 ≠ 1 then (s, [])
  else
    match ExtractNonceInfo (data.take 16) with
    | .error _ => (s, [])
    | .ok (_, _, dataLen) =>
      match UDPSession.decrypt B (updateRemoteAddr s addr) data with
      | (.error _, s2) => (s2, [])
      | (.ok d, s2) =>
        if d.length ≠ dataLen then (s2, [])
        else if s2.status = "active" ∧ s2.recvQueue.length < 100 then
          ({ s2 with recvQueue := s2.recvQueue ++ [stripInnerHeader d] },
           [stripInnerHeader d])
        else (s2, [])

/-! ## dialogue_manager.go and the Postgres memory backend

`types.Message` fields not consulted by any claim (tool_calls, bot_id, bot
name) are omitted.  Persistence (`PostgresMemory.SaveMemory`) appends one
`DialogueMessage` row per message and never deletes, so the table is modelled
as an append-only list of rows. -/

/-- A dialogue message (role, content, tool_call_id). -/
structure ChatMessage where
  role : String
  content : GoStr
  toolCallID : GoStr
deriving DecidableEq

/-- A persisted row of the `DialogueMessage` table as written by
`PostgresMemory.SaveMemory` (Index is always stored as 0). -/
structure DialogueRow where
  userID : String
  index : Nat
  role : String
  content : GoStr
  toolCallID : GoStr
deriving DecidableEq

/-- `strings.TrimSpace` on byte strings: leading and trailing whitespace
removed.  The ASCII whitespace bytes are handled; Go additionally trims a few
non-ASCII Unicode space runes, which no claim depends on. -/
def isSpaceByte (b : Nat) : Bool :=
  b = 9 || b = 10 || b = 11 || b = 12 || b = 13 || b = 32

def goTrimSpace (s : GoStr) : GoStr :=
  ((s.dropWhile isSpaceByte).reverse.dropWhile isSpaceByte).reverse

/-- The row `SaveMemory` builds from a message. -/
def saveMemoryRow (uid : String) (m : ChatMessage) : DialogueRow :=
  { userID := uid, index := 0, role := m.role, content := m.content,
    toolCallID := m.toolCallID }

/-- The dialogue manager together with its persistent table. -/
structure DialogueManager where
  userID : String
  dialogue : List ChatMessage
  rows : List DialogueRow
deriving DecidableEq

/-- DialogueManager.Put (dialogue_manager.go lines 86-98): append the message
to the in-memory dialogue; persist one row via `SaveMemory` only when the role
is user or assistant and the content is non-empty after `TrimSpace`. -/
def DialogueManager.put (dm : DialogueManager) (m : ChatMessage) :
    DialogueManager :=
  { dm with
    dialogue := dm.dialogue ++ [m],
    rows :=
      if (m.role = "user" ∨ m.role = "assistant") ∧ goTrimSpace m.content ≠ []
      then dm.rows ++ [saveMemoryRow dm.userID m]
      else dm.rows }

/-! ## connection.go: chat handling and the speech-egress stages -/

/-- A TTS queue task: text with the round and segment index it was created
at. -/
structure TTSTask where
  text : GoStr
  round : Nat
  textIndex : Int
deriving DecidableEq

/-- An audio-send queue task. -/
structure AudioTask where
  filepath : GoStr
  text : GoStr
  round : Nat
  textIndex : Int
deriving DecidableEq

/-- The configuration fields consulted by the modelled handler paths. -/
structure HConfig where
  quickReply : Bool
  quickReplyWords : List GoStr
  cmdExit : List GoStr
  deleteAudio : Bool
deriving DecidableEq

/-- Modelled from the spec: the text helpers of the `utils` package
(`RemoveAllPunctuation`, `IsWakeUpWord`, `RandomSelectFromArray`,
`RemoveAllEmoji`, `RemoveMarkdownSyntax`), whose source file is not included
under src.  The spec describes them only by effect (punctuation stripping,
wake-word matching, random choice, emoji and Markdown stripping), so they are
arbitrary parameters of the model and every theorem quantifies over them. -/
structure TextUtils where
  removeAllPunctuation : GoStr → GoStr
  isWakeUpWord : GoStr → Bool
  randomSelectFromArray : List GoStr → GoStr
  removeAllEmoji : GoStr → GoStr
  removeMarkdownSyntax : GoStr → GoStr

/-- External collaborators of the speech-egress stages: the TTS provider
(`ToTTS`, which may fail), the quick-reply audio cache (empty path = miss),
the cached-file and music-file predicates, and the audio file framer used by
the audio-send stage. -/
structure Egress where
  toTTS : GoStr → Option GoStr
  findCachedAudio : GoStr → GoStr
  isCachedFile : GoStr → Bool
  isMusicFile : GoStr → Bool
  readAudioFrames : GoStr → List GoStr

/-- Modelled from the spec: `utils.IsQuickReplyHit` (source not under src);
the spec says a TTS text hits the quick-reply cache when it matches a
configured quick-reply word. -/
def isQuickReplyHit (text : GoStr) (words : List GoStr) : Bool :=
  words.contains text

/-- The per-session handler state touched by the modelled paths.  Queues are
the contents of the bounded channels; `serverVoiceStop` is the 0/1 atomic. -/
structure HState where
  talkRound : Nat
  serverVoiceStop : Bool
  closed : Bool
  closeAfterChat : Bool
  ttsLastTextIndex : Int
  dm : DialogueManager
  ttsQueue : List TTSTask
  audioQueue : List AudioTask
deriving DecidableEq

/-- Observable actions of a handler call: control frames sent to the client,
TTS provider invocations, cache writes, file deletions and binary audio
frames written to the transport. -/
inductive HEvent where
  | sttSent (text : GoStr)
  | ttsStateSent (st : String) (text : GoStr) (idx : Int)
  | synthCalled (text : GoStr)
  | cacheSaved (text fp : GoStr)
  | fileDeleted (fp : GoStr)
  | audioFrameSent (frame : GoStr)
deriving DecidableEq

/-- cleanTTSAndAudioQueue: drain both queues.  Deleting the audio files of the
drained tasks is a filesystem effect outside the state model. -/
def cleanTTSAndAudioQueue (s : HState) : HState :=
  { s with ttsQueue := [], audioQueue := [] }

/-- stopServerSpeak: set the barge-in flag, then drain both queues. -/
def stopServerSpeak (s : HState) : HState :=
  cleanTTSAndAudioQueue { s with serverVoiceStop := true }

/-- ConnectionHandler.Close: guarded by closeOnce; drains both queues.
Decoder shutdown and provider resets are external effects. -/
def closeHandler (s : HState) : HState :=
  if s.closed then s else cleanTTSAndAudioQueue { s with closed := true }

/-- clientAbortChat: stop server speech, send a tts stop frame, clear the
speak status (tts_last_text_index becomes -1). -/
def clientAbortChat (s : HState) : HState × List HEvent :=
  ({ stopServerSpeak s with ttsLastTextIndex := -1 },
   [.ttsStateSent "stop" [] 0])

/-- SpeakAndPlay (connection.go lines 1187-1217): strip emoji and Markdown,
refuse empty text, refuse when the barge-in flag is set (clearing the text),
truncate to 255 bytes, and in every case (deferred enqueue) push the final
text onto the TTS queue with the given round and index.  Returns the error
result as an `Option`. -/
def speakAndPlay (u : TextUtils) (s : HState) (text0 : GoStr) (textIndex : Int)
    (round : Nat) : HState × Option String :=
  let t := u.removeMarkdownSyntax (u.removeAllEmoji text0)
  if t = [] then
    ({ s with ttsQueue := s.ttsQueue ++ [⟨t, round, textIndex⟩] },
     some "empty text")
  else if s.serverVoiceStop then
    ({ s with ttsQueue := s.ttsQueue ++ [⟨[], round, textIndex⟩] },
     some "server voice stopped")
  else
    ({ s with ttsQueue := s.ttsQueue ++
        [⟨if t.length > 255 then t.take 255 else t, round, textIndex⟩] },
     none)

/-- QuitIntent (connection.go lines 687-705): if the punctuation-stripped text
equals one of the configured CMD_exit commands, close the connection and
report the exit.  A nil command list matches nothing, like the empty list. -/
def quitIntent (u : TextUtils) (cfg : HConfig) (s : HState) (text : GoStr) :
    HState × Bool :=
  if cfg.cmdExit.contains (u.removeAllPunctuation text) then
    (closeHandler s, true)
  else (s, false)

/-- quickReplyWakeUpWords (connection.go lines 707-722): on quick_reply mode,
first round and a wake-word match, speak a randomly selected quick reply. -/
def quickReplyWakeUpWords (u : TextUtils) (cfg : HConfig) (s : HState)
    (text : GoStr) : HState × Bool :=
  if ¬cfg.quickReply ∨ s.talkRound ≠ 1 then (s, false)
  else if ¬u.isWakeUpWord text then (s, false)
  else
    ((speakAndPlay u { s with ttsLastTextIndex := 1 }
        (u.randomSelectFromArray cfg.quickReplyWords) 1 s.talkRound).1, true)

/-- handleChatMessage (connection.go lines 725-775): reject empty text
(abort), check exit intent, increment the talk round, emit the stt and
tts-start frames, try the quick reply, otherwise append the user message to
the dialogue and generate the LLM response.  The streaming LLM continuation
`genResponseByLLM` is passed as the parameter `gen` (it receives the state
and the captured current round), so theorems about the paths that return
before it hold for arbitrary LLM behaviour. -/
def handleChatMessage (u : TextUtils) (cfg : HConfig)
    (gen : HState → Nat → HState × List HEvent) (s : HState) (text : GoStr) :
    HState × List HEvent :=
  if text = [] then clientAbortChat s
  else
    match quitIntent u cfg s text with
    | (s1, true) => (s1, [])
    | (s1, false) =>
      match quickReplyWakeUpWords u cfg { s1 with talkRound := s1.talkRound + 1 } text with
      | (s3, true) => (s3, [.sttSent text, .ttsStateSent "start" [] 0])
      | (s3, false) =>
        let s4 := { s3 with dm := s3.dm.put ⟨"user", text, []⟩ }
        let r := gen s4 (s1.talkRound + 1)
        (r.1, [.sttSent text, .ttsStateSent "start" [] 0] ++ r.2)

/-- deleteAudioFileIfNeeded (connection.go lines 1102-1125): delete the file
unless deletion is disabled, the path is empty, or it is a cached quick-reply
or music file. -/
def deleteAudioFileEvents (g : Egress) (cfg : HConfig) (fp : GoStr) :
    List HEvent :=
  if ¬cfg.deleteAudio ∨ fp = [] then []
  else if g.isCachedFile fp then []
  else if g.isMusicFile fp then []
  else [.fileDeleted fp]

/-- processTTSTask (connection.go lines 1128-1184): quick-reply cache lookup;
otherwise strip emoji, refuse empty text, synthesize via the TTS provider,
save a quick-reply hit to the cache, and drop the audio (deleting the file)
when the barge-in flag is set.  The deferred block always forwards an audio
task carrying the final filepath, text, round and index to the audio-send
queue.  Note: the task round is never compared with the current talk round
here. -/
def processTTSTask (u : TextUtils) (g : Egress) (cfg : HConfig) (s : HState)
    (t : TTSTask) : HState × List HEvent :=
  if isQuickReplyHit t.text cfg.quickReplyWords ∧ g.findCachedAudio t.text ≠ [] then
    ({ s with audioQueue := s.audioQueue ++
        [⟨g.findCachedAudio t.text, t.text, t.round, t.textIndex⟩] }, [])
  else
    if u.removeAllEmoji t.text = [] then
      ({ s with audioQueue := s.audioQueue ++
          [⟨[], u.removeAllEmoji t.text, t.round, t.textIndex⟩] }, [])
    else
      match g.toTTS (u.removeAllEmoji t.text) with
      | none =>
        ({ s with audioQueue := s.audioQueue ++
            [⟨[], u.removeAllEmoji t.text, t.round, t.textIndex⟩] },
         [.synthCalled (u.removeAllEmoji t.text)])
      | some fp =>
        if s.serverVoiceStop then
          ({ s with audioQueue := s.audioQueue ++
              [⟨fp, u.removeAllEmoji t.text, t.round, t.textIndex⟩] },
           [.synthCalled (u.removeAllEmoji t.text)] ++
           (if isQuickReplyHit (u.removeAllEmoji t.text) cfg.quickReplyWords
            then [.cacheSaved (u.removeAllEmoji t.text) fp] else []) ++
           deleteAudioFileEvents g cfg fp)
        else
          ({ s with audioQueue := s.audioQueue ++
              [⟨fp, u.removeAllEmoji t.text, t.round, t.textIndex⟩] },
           [.synthCalled (u.removeAllEmoji t.text)] ++
           (if isQuickReplyHit (u.removeAllEmoji t.text) cfg.quickReplyWords
            then [.cacheSaved (u.removeAllEmoji t.text) fp] else []))

/-- Modelled from the spec: `ConnectionHandler.sendAudioMessage`, the body of
the audio-send stage, is not included under src (only its dispatcher
`sendAudioMessageCoroutine` is).  Per the spec: a task read from the queue
whose round differs from the current round is silently discarded; otherwise
the audio file is framed and the frames written to the transport between
`tts sentence_start` and `tts sentence_end` envelope events, with a
`tts stop` event after the final segment of the round. -/
def sendAudioMessage (g : Egress) (s : HState) (a : AudioTask) :
    HState × List HEvent :=
  if a.round ≠ s.talkRound then (s, [])
  else
    (s, [.ttsStateSent "sentence_start" a.text a.textIndex] ++
        (g.readAudioFrames a.filepath).map HEvent.audioFrameSent ++
        [.ttsStateSent "sentence_end" [] 0] ++
        (if a.textIndex = s.ttsLastTextIndex then [.ttsStateSent "stop" [] 0]
         else []))

/-- Number of UTF-8 characters in a byte string: the bytes that are not
continuation bytes (10xxxxxx) each start a character. -/
def utf8CharCount (s : GoStr) : Nat :=
  (s.filter (fun b => decide (b < 128 ∨ 192 ≤ b))).length

/-! ## Concrete instances used by witnesses and counterexamples (UDP part) -/

/-- A concrete AES block permutation stand-in: the all-zero keystream block,
under which CTR leaves bytes unchanged. -/
def B0 : GoStr → GoStr → GoStr := fun _ _ => List.replicate 16 0

/-- Concrete session for the C3 witness: remoteSeq 5. -/
def c3Session : UDPSession :=
  { newUDPSession "dev" "sess" (List.replicate 16 0) (List.replicate 8 0) "cid" with
    remoteSeq := 5 }

/-- Concrete stale packet for the C3 witness: sequence number 3, one payload
byte. -/
def c3Packet : GoStr :=
  [1, 0, 0, 1, 0, 0, 0, 0, 0, 0, 0, 0, 0, 0, 0, 3] ++ [9]

/-- Fresh session for the C4 scenario. -/
def c4Session : UDPSession :=
  newUDPSession "dev" "sess" (List.replicate 16 0) (List.replicate 8 0) "cid"

/-- Packet with sequence number 1 and two payload bytes for the C4 scenario. -/
def c4Packet : GoStr :=
  [1, 0, 0, 2, 0, 0, 0, 0, 0, 0, 0, 0, 0, 0, 0, 1] ++ [7, 8]

/-! ## The per-session VAD state and processAudioWithVAD -/

/-- VADState (package core): voice-activity bookkeeping and the audio
buffer. -/
structure VADState where
  haveVoice : Bool
  haveVoiceLastTime : Int
  voiceStop : Bool
  idleDuration : Int
  audioBuffer : GoStr
  frameSize : Nat
  maxBufferFrames : Nat
  vadCheckFrames : Nat
  silenceThreshold : Int
deriving DecidableEq

/-- NewVADState: defaults of 10 buffered frames and 3 VAD check frames. -/
def newVADState (frameSize : Nat) (silenceThreshold : Int) : VADState :=
  { frameSize := frameSize, maxBufferFrames := 10, vadCheckFrames := 3,
    silenceThreshold := silenceThreshold, audioBuffer := [],
    haveVoice := false, haveVoiceLastTime := 0, voiceStop := false,
    idleDuration := 0 }

/-- AddAudioData: append the chunk to the buffer. -/
def VADState.addAudioData (v : VADState) (data : GoStr) : VADState :=
  { v with audioBuffer := v.audioBuffer ++ data }

/-- GetBufferedFrameCount: buffered bytes divided by the frame size. -/
def VADState.getBufferedFrameCount (v : VADState) : Nat :=
  if v.frameSize = 0 then 0 else v.audioBuffer.length / v.frameSize

/-- RemoveOldFrames: when more than `keepFrames` whole frames are buffered,
drop the oldest surplus frames.  (Go would divide by zero on a zero frame
size; in the model that division is 0 and the buffer is left unchanged.) -/
def VADState.removeOldFrames (v : VADState) (keepFrames : Nat) : VADState :=
  if keepFrames < v.audioBuffer.length / v.frameSize then
    { v with
      audioBuffer := v.audioBuffer.drop
        ((v.audioBuffer.length / v.frameSize - keepFrames) * v.frameSize) }
  else v

/-- ClearBuffer. -/
def VADState.clearBuffer (v : VADState) : VADState :=
  { v with audioBuffer := [] }

/-- HasEnoughDataForVAD: at least `vadCheckFrames` frames buffered. -/
def VADState.hasEnoughDataForVAD (v : VADState) : Bool :=
  v.vadCheckFrames * v.frameSize ≤ v.audioBuffer.length

/-- Frame-size adjustment at the top of `processAudioWithVAD`: a non-empty
chunk whose length differs from the current frame size resets the frame size
to the chunk length. -/
def adjustFrameSize (v : VADState) (audioData : GoStr) : VADState :=
  if 0 < audioData.length ∧ audioData.length ≠ v.frameSize then
    { v with frameSize := audioData.length }
  else v

/-- The buffering prefix of `processAudioWithVAD`: frame-size adjustment, a
one-frame VAD check window, and the append of the chunk. -/
def vadIngest (s0 : VADState) (audioData : GoStr) : VADState :=
  ({ adjustFrameSize s0 audioData with vadCheckFrames := 1 }).addAudioData
    audioData

/-- processAudioWithVAD (connection.go lines 475-616): adjust the frame size
to the chunk length, set the VAD check window to one frame, buffer the chunk,
and when enough data is buffered run the VAD and take the voice-state
transitions, flushing buffered audio to the recognizer on voice.  The sample
rate and the computed per-chunk frame duration feed only the VAD provider
call, which is abstracted by its outcome `vadOutcome` (`none` models a
provider error, after which the code assumes voice); `frameMsIn` is the
configured client frame duration used for idle accumulation; `nowMs` is the
wall clock.  Returns the new state and the chunks handed to `asr.AddAudio`. -/
def processAudioWithVAD (s0 : VADState) (frameMsIn : Int) (audioData : GoStr)
    (vadOutcome : Option Bool) (nowMs : Int) : VADState × List GoStr :=
  let frameMs : Int := if frameMsIn ≤ 0 then 20 else frameMsIn
  let s := vadIngest s0 audioData
  if ¬s.hasEnoughDataForVAD then (s, [])
  else
    let haveVoice := vadOutcome.getD true
    if haveVoice ∧ ¬s.haveVoice then
      ({ s with
          audioBuffer := [], haveVoice := true,
          haveVoiceLastTime := nowMs, idleDuration := 0 },
       [s.audioBuffer])
    else if s.haveVoice then
      let s2 :=
        if haveVoice then
          { s with
            audioBuffer := [], haveVoiceLastTime := nowMs,
            idleDuration := 0 }
        else
          { s with audioBuffer := [], idleDuration := s.idleDuration + frameMs }
      (if s2.silenceThreshold < s2.idleDuration then
        { s2 with voiceStop := true } else s2,
       if 0 < s.audioBuffer.length then [s.audioBuffer] else [])
    else
      let s1 := { s with idleDuration := s.idleDuration + frameMs }
      (if s1.vadCheckFrames * 3 < s1.getBufferedFrameCount then
        s1.removeOldFrames s1.maxBufferFrames else s1,
       [])

/-! ## websocket/transport.go: JWT auth gate -/

/-- The request headers and query parameters consulted by
`handleWebSocket`. -/
structure WSRequest where
  authorizationHeader : String
  deviceIdHeader : String
  clientIdHeader : String
  sessionIdHeader : String
  transportTypeHeader : String
  queryDeviceId : String
  queryClientId : String
  querySessionId : String
  queryTransportType : String
  queryToken : String
deriving DecidableEq

/-- Browser support at the top of `handleWebSocket`: copy non-empty query
parameters into the headers; a query token is installed as a Bearer
Authorization header.  (The `Token` and `Enable-VAD` headers are also set by
the source but consulted by nothing modelled here.) -/
def injectBrowserHeaders (browser : Bool) (r : WSRequest) : WSRequest :=
  if ¬browser then r
  else
    let r1 := if r.queryDeviceId ≠ "" then
      { r with deviceIdHeader := r.queryDeviceId } else r
    let r2 := if r1.queryClientId ≠ "" then
      { r1 with clientIdHeader := r1.queryClientId } else r1
    let r3 := if r2.querySessionId ≠ "" then
      { r2 with sessionIdHeader := r2.querySessionId } else r2
    let r4 := if r3.queryTransportType ≠ "" then
      { r3 with transportTypeHeader := r3.queryTransportType } else r3
    if r4.queryToken ≠ "" then
      { r4 with authorizationHeader := "Bearer " ++ r4.queryToken } else r4

/-- verifyJWTAuth (transport.go lines 117-141): require a Bearer header,
verify the token (the JWT library call `VerifyToken` is the parameter
`verifyToken`, returning the device id and user id claims on success), and
require the device id claim to equal the Device-Id header. -/
def verifyJWTAuth (verifyToken : String → Option (String × Nat))
    (r : WSRequest) : Except String Nat :=
  if ¬r.authorizationHeader.startsWith "Bearer " then
    .error "missing or invalid Authorization header"
  else
    match verifyToken (r.authorizationHeader.drop 7) with
    | none => .error "token verification failed"
    | some (deviceID, userID) =>
      if r.deviceIdHeader ≠ deviceID then .error "device id does not match token"
      else .ok userID

/-- Observable outcome of `handleWebSocket`: the HTTP error status written
(if any), whether the socket was upgraded, and whether a connection handler
was created.  Providers are only borrowed inside the handler factory, so
`handlerCreated = false` entails that no provider was touched. -/
structure WSOutcome where
  httpStatus : Option Nat
  upgraded : Bool
  handlerCreated : Bool
deriving DecidableEq

/-- handleWebSocket (transport.go lines 164-256): inject browser headers,
verify auth (any failure writes HTTP 401 and returns before the upgrade),
upgrade the socket, then create the connection handler via the factory.
`upgradeOk`, `factoryPresent` and `handlerOk` model the fallible external
steps of the success path. -/
def handleWebSocket (verifyToken : String → Option (String × Nat))
    (browser upgradeOk factoryPresent handlerOk : Bool) (r : WSRequest) :
    WSOutcome :=
  match verifyJWTAuth verifyToken (injectBrowserHeaders browser r) with
  | .error _ => { httpStatus := some 401, upgraded := false, handlerCreated := false }
  | .ok _ =>
    if ¬upgradeOk then
      { httpStatus := none, upgraded := false, handlerCreated := false }
    else if ¬factoryPresent then
      { httpStatus := none, upgraded := true, handlerCreated := false }
    else if ¬handlerOk then
      { httpStatus := none, upgraded := true, handlerCreated := false }
    else
      { httpStatus := none, upgraded := true, handlerCreated := true }

/-! ## Concrete instances used by witnesses and counterexamples (handler) -/

/-- Text utilities that strip nothing, match no wake word, and pick the first
array element. -/
def u0 : TextUtils :=
  { removeAllPunctuation := fun t => t,
    isWakeUpWord := fun _ => false,
    randomSelectFromArray := fun arr => arr.getD 0 [],
    removeAllEmoji := fun t => t,
    removeMarkdownSyntax := fun t => t }

/-- Wake-word-matching variant of `u0` for the quick-reply witness. -/
def u1 : TextUtils :=
  { u0 with isWakeUpWord := fun _ => true }

/-- Egress collaborators: synthesis prefixes a byte to the text, the cache is
always empty, and framing returns the file as a single frame. -/
def g0 : Egress :=
  { toTTS := fun t => some (102 :: t),
    findCachedAudio := fun _ => [],
    isCachedFile := fun _ => false,
    isMusicFile := fun _ => false,
    readAudioFrames := fun fp => [fp] }

def cfg0 : HConfig :=
  { quickReply := true, quickReplyWords := [[119]], cmdExit := [[113]],
    deleteAudio := false }

def baseDM : DialogueManager :=
  { userID := "u1", dialogue := [], rows := [] }

def baseState : HState :=
  { talkRound := 0, serverVoiceStop := false, closed := false,
    closeAfterChat := false, ttsLastTextIndex := -1, dm := baseDM,
    ttsQueue := [], audioQueue := [] }

/-- Handler state mid-round-2 for the C1 scenario. -/
def sC1 : HState := { baseState with talkRound := 2 }

/-- A TTS task created at round 1, dequeued when the round is already 2. -/
def tC1 : TTSTask := ⟨[104, 105], 1, 1⟩

/-- An audio task created at round 1, dequeued when the round is already 2. -/
def aC1 : AudioTask := ⟨[102], [104, 105], 1, 1⟩

/-- 100 copies of the three UTF-8 bytes of a CJK character: 100 characters,
300 bytes. -/
def cjkText : GoStr := (List.replicate 100 [228, 189, 160]).flatten

/-- A user message with non-blank content. -/
def m0 : ChatMessage := ⟨"user", [104, 105], []⟩

/-- Fresh VAD state with a 640-byte frame (16 kHz, 16-bit, 20 ms). -/
def c9s0 : VADState := newVADState 640 200

/-- First chunk: 640 bytes, no voice reported. -/
def c9step1 : VADState × List GoStr :=
  processAudioWithVAD c9s0 20 (List.replicate 640 0) (some false) 0

/-- Second chunk: 300 bytes, no voice reported. -/
def c9step2 : VADState × List GoStr :=
  processAudioWithVAD c9step1.1 20 (List.replicate 300 1) (some false) 0

/-- A token verifier accepting exactly the token string of the C6 witness,
with device id claim dev-a. -/
def vt0 : String → Option (String × Nat) :=
  fun t => if t = "tok" then some ("dev-a", 7) else none

/-- A request whose verified token carries device id dev-a while the
Device-Id header says dev-b. -/
def r0 : WSRequest :=
  { authorizationHeader := "Bearer tok", deviceIdHeader := "dev-b",
    clientIdHeader := "", sessionIdHeader := "", transportTypeHeader := "",
    queryDeviceId := "", queryClientId := "", querySessionId := "",
    queryTransportType := "", queryToken := "" }

/-! ## Lemmas about the CTR stream -/

theorem ctrXorFrom_length (ks : Nat → Nat) : ∀ (i : Nat) (bs : GoStr),
    (ctrXorFrom ks i bs).length = bs.length := by
  intro i bs
  induction bs generalizing i with
  | nil => rfl
  | cons b bs ih => simp [ctrXorFrom, ih]

theorem ctrXorFrom_ctrXorFrom (ks : Nat → Nat) : ∀ (i : Nat) (bs : GoStr),
    ctrXorFrom ks i (ctrXorFrom ks i bs) = bs := by
  intro i bs
  induction bs generalizing i with
  | nil => rfl
  | cons b bs ih =>
    simp [ctrXorFrom, ih, Nat.xor_assoc]

/-- C10: for every 16-byte key and nonce, CTR encryption succeeds, preserves
the length, and decrypting the ciphertext returns the plaintext; either
function errors exactly when the nonce or the key is not 16 bytes long.
Quantified over the AES block permutation `B`, on which none of this
depends. -/
theorem EncryptAESCTR_roundtrip (B : GoStr → GoStr → GoStr)
    (nonce key plaintext : GoStr) :
    ((∃ e, EncryptAESCTR B nonce key plaintext = .error e) ↔
        (nonce.length ≠ 16 ∨ key.length ≠ 16)) ∧
    ((∃ e, DecryptAESCTR B nonce key plaintext = .error e) ↔
        (nonce.length ≠ 16 ∨ key.length ≠ 16)) ∧
    (nonce.length = 16 → key.length = 16 →
      ∃ ct, EncryptAESCTR B nonce key plaintext = .ok ct ∧
        ct.length = plaintext.length ∧
        DecryptAESCTR B nonce key ct = .ok plaintext) := by
  unfold DecryptAESCTR EncryptAESCTR
  by_cases hn : nonce.length = 16 <;> by_cases hk : key.length = 16 <;>
    simp [hn, hk, ctrXorFrom_length, ctrXorFrom_ctrXorFrom]

theorem EncryptAESCTR_roundtrip_witness :
    ∃ ct, EncryptAESCTR B0 (List.replicate 16 0) (List.replicate 16 0) [1, 2, 3] = .ok ct ∧
      ct.length = 3 ∧
      DecryptAESCTR B0 (List.replicate 16 0) (List.replicate 16 0) ct = .ok [1, 2, 3] :=
  (EncryptAESCTR_roundtrip B0 (List.replicate 16 0) (List.replicate 16 0)
    [1, 2, 3]).2.2 (by decide) (by decide)

/-! ## C3: the remote sequence number is monotone, and stale packets are
rejected without touching it -/

/-- Helper: the sequence number `ExtractNonceInfo` reads out of a packet of at
least 16 bytes is `packetSeq`. -/
theorem extractNonceInfo_of_long {packet : GoStr} (h16 : ¬packet.length < 16) :
    ExtractNonceInfo (packet.take 16) =
      .ok (((packet.take 16).drop 4).take 4, packetSeq packet,
           packetDataLen packet) := by
  rw [ExtractNonceInfo,
    if_neg (by simp only [List.length_take]; omega : ¬(packet.take 16).length < 16)]
  rfl

/-- Helper: a packet whose sequence number is strictly below a positive stored
`remoteSeq` is rejected and the session state is returned unchanged. -/
theorem decrypt_rejects_stale (B : GoStr → GoStr → GoStr) (s : UDPSession)
    (packet : GoStr) (hpos : 0 < s.remoteSeq)
    (hlt : packetSeq packet < s.remoteSeq) :
    ∃ e, UDPSession.decrypt B s packet = (.error e, s) := by
  unfold UDPSession.decrypt
  split
  · exact ⟨_, rfl⟩
  · split
    · exact ⟨_, rfl⟩
    · next h16 _ =>
      rw [extractNonceInfo_of_long h16]
      simp only
      split
      · exact ⟨_, rfl⟩
      · rw [if_pos ⟨hpos, hlt⟩]
        exact ⟨_, rfl⟩

/-- C3: once a packet with a positive sequence number has been accepted
(`remoteSeq > 0`, since `remoteSeq` is only ever assigned the sequence number
of an accepted packet), `Decrypt` never decreases the stored `remoteSeq`; and
a packet whose sequence number is strictly below the stored `remoteSeq` is
rejected with an error, the stored `remoteSeq` is unchanged, and the packet
loop delivers nothing to the session receive channel that feeds the
recognizer. -/
theorem Decrypt_remoteSeq_monotone (B : GoStr → GoStr → GoStr)
    (s : UDPSession) (packet : GoStr) (addr : String)
    (hpos : 0 < s.remoteSeq) :
    s.remoteSeq ≤ ((UDPSession.decrypt B s packet).2).remoteSeq ∧
    (packetSeq packet < s.remoteSeq →
      (∃ e, (UDPSession.decrypt B s packet).1 = .error e) ∧
      (UDPSession.decrypt B s packet).2 = s ∧
      (processPacket B s addr packet).2 = [] ∧
      ((processPacket B s addr packet).1).remoteSeq = s.remoteSeq) := by
  constructor
  · unfold UDPSession.decrypt
    split
    · simp
    · split
      · simp
      · next h16 _ =>
        split
        · simp
        · next a seq dataLen heq =>
          rw [extractNonceInfo_of_long h16] at heq
          obtain ⟨-, h2, -⟩ : _ ∧ packetSeq packet = seq ∧ _ := by
            simpa using heq
          split
          · simp
          · split
            · simp
            · next hseq =>
              rw [not_and, not_lt] at hseq
              split <;> simp <;> omega
  · intro hlt
    obtain ⟨e, he⟩ := decrypt_rejects_stale B s packet hpos hlt
    have hup : (updateRemoteAddr s addr).remoteSeq = s.remoteSeq := by
      unfold updateRemoteAddr
      split
      · rfl
      · split <;> rfl
    obtain ⟨e1, he1⟩ := decrypt_rejects_stale B (updateRemoteAddr s addr) packet
      (by omega) (by omega)
    refine ⟨⟨e, by rw [he]⟩, by rw [he], ?_⟩
    unfold processPacket
    split
    · exact ⟨rfl, rfl⟩
    · split
      · exact ⟨rfl, rfl⟩
      · split
        · exact ⟨rfl, rfl⟩
        · rw [he1]
          exact ⟨rfl, hup⟩

theorem Decrypt_remoteSeq_monotone_witness :
    c3Session.remoteSeq ≤ ((UDPSession.decrypt B0 c3Session c3Packet).2).remoteSeq ∧
    (packetSeq c3Packet < c3Session.remoteSeq →
      (∃ e, (UDPSession.decrypt B0 c3Session c3Packet).1 = .error e) ∧
      (UDPSession.decrypt B0 c3Session c3Packet).2 = c3Session ∧
      (processPacket B0 c3Session "10.0.0.7:4000" c3Packet).2 = [] ∧
      ((processPacket B0 c3Session "10.0.0.7:4000" c3Packet).1).remoteSeq =
        c3Session.remoteSeq) :=
  Decrypt_remoteSeq_monotone B0 c3Session c3Packet "10.0.0.7:4000" (by decide)

/-! ## C4: a duplicate sequence number is NOT dropped

The anti-replay check in `Decrypt` is `seq < s.RemoteSeq` (strict), with the
stated intent of allowing the first packet, so a second packet carrying the
same sequence number as the last accepted one passes the check, is decrypted,
and its payload is delivered to the receive channel. -/

/-- Helper: the fields of the session other than `remoteAddr` are untouched by
the address-learning step. -/
theorem updateRemoteAddr_fields (s : UDPSession) (addr : String) :
    (updateRemoteAddr s addr).status = s.status ∧
    (updateRemoteAddr s addr).remoteSeq = s.remoteSeq ∧
    (updateRemoteAddr s addr).aesKey = s.aesKey ∧
    (updateRemoteAddr s addr).recvQueue = s.recvQueue := by
  unfold updateRemoteAddr
  split
  · exact ⟨rfl, rfl, rfl, rfl⟩
  · split <;> exact ⟨rfl, rfl, rfl, rfl⟩

/-- Helper: characterization of an accepting run of `Decrypt`. -/
theorem decrypt_eq_ok (B : GoStr → GoStr → GoStr) (s : UDPSession)
    (packet : GoStr) (hact : s.status = "active")
    (h16 : ¬packet.length < 16)
    (hdl : packetDataLen packet = (packet.drop 16).length)
    (hnostale : ¬(0 < s.remoteSeq ∧ packetSeq packet < s.remoteSeq))
    (hkey : s.aesKey.length = 16) :
    UDPSession.decrypt B s packet =
      (.ok (ctrXorFrom (ctrKeystreamByte B s.aesKey (packet.take 16)) 0
              (packet.drop 16)),
       { s with remoteSeq := packetSeq packet }) := by
  unfold UDPSession.decrypt
  rw [if_neg h16, if_neg (by simp [hact]), extractNonceInfo_of_long h16]
  dsimp only
  rw [if_neg (by omega), if_neg hnostale]
  unfold DecryptAESCTR EncryptAESCTR
  rw [if_neg (by simp only [List.length_take]; omega),
    if_neg (by simp [hkey])]

/-- C4 fails on the code: starting from a fresh session, the same packet with
sequence number 1 is accepted twice; the second `Decrypt` succeeds and
`processPacket` delivers its payload to the channel read by the recognizer. -/
theorem duplicate_seq_counterexample :
    (UDPSession.decrypt B0 c4Session c4Packet).1 = .ok [7, 8] ∧
    ((UDPSession.decrypt B0 c4Session c4Packet).2).remoteSeq = 1 ∧
    (UDPSession.decrypt B0 ((UDPSession.decrypt B0 c4Session c4Packet).2)
        c4Packet).1 = .ok [7, 8] ∧
    (processPacket B0 ((UDPSession.decrypt B0 c4Session c4Packet).2)
        "9.9.9.9:1" c4Packet).2 = [[7, 8]] :=
  ⟨rfl, rfl, rfl, rfl⟩

/-- C4 amended: after a packet with sequence number `n > 0` has been accepted,
a second packet with the same sequence number `n` is accepted, not dropped:
only packets with a sequence number strictly below the stored `remoteSeq` are
rejected.  The duplicate decrypts successfully, leaves `remoteSeq` unchanged,
and its payload is forwarded to the recognizer channel. -/
theorem decrypt_accepts_equal_seq (B : GoStr → GoStr → GoStr) (s : UDPSession)
    (packet : GoStr) (addr : String)
    (hact : s.status = "active") (h16 : 16 ≤ packet.length)
    (hpos : 0 < s.remoteSeq) (hseq : packetSeq packet = s.remoteSeq)
    (hdl : packetDataLen packet = packet.length - 16)
    (hkey : s.aesKey.length = 16) (hfirst : packet.getD 0 0 = 1)
    (hq : s.recvQueue.length < 100) :
    (∃ d, (UDPSession.decrypt B s packet).1 = .ok d) ∧
    ((UDPSession.decrypt B s packet).2).remoteSeq = s.remoteSeq ∧
    (processPacket B s addr packet).2 ≠ [] := by
  have h16n : ¬packet.length < 16 := by omega
  have hdl2 : packetDataLen packet = (packet.drop 16).length := by
    simp only [List.length_drop]; omega
  have hns : ¬(0 < s.remoteSeq ∧ packetSeq packet < s.remoteSeq) := by omega
  have hd := decrypt_eq_ok B s packet hact h16n hdl2 hns hkey
  refine ⟨⟨_, by rw [hd]⟩, by rw [hd, hseq], ?_⟩
  obtain ⟨hust, husq, husk, husr⟩ := updateRemoteAddr_fields s addr
  have hd1 := decrypt_eq_ok B (updateRemoteAddr s addr) packet
    (by rw [hust, hact]) h16n hdl2 (by rw [husq]; omega) (by rw [husk, hkey])
  unfold processPacket
  rw [if_neg h16n, if_neg (fun h => h hfirst), extractNonceInfo_of_long h16n]
  dsimp only
  rw [hd1]
  dsimp only
  rw [husk, if_neg (by
    simp only [ctrXorFrom_length, List.length_drop]
    omega)]
  rw [if_pos ⟨by simpa [hust] using hact, by simpa [husr] using hq⟩]
  simp

/-- Witness for the amended C4 at the concrete duplicate-seq scenario. -/
theorem decrypt_accepts_equal_seq_witness :
    (∃ d, (UDPSession.decrypt B0 ((UDPSession.decrypt B0 c4Session c4Packet).2)
        c4Packet).1 = .ok d) ∧
    (((UDPSession.decrypt B0 ((UDPSession.decrypt B0 c4Session c4Packet).2)
        c4Packet).2)).remoteSeq =
      ((UDPSession.decrypt B0 c4Session c4Packet).2).remoteSeq ∧
    (processPacket B0 ((UDPSession.decrypt B0 c4Session c4Packet).2)
        "9.9.9.9:1" c4Packet).2 ≠ [] :=
  decrypt_accepts_equal_seq B0 ((UDPSession.decrypt B0 c4Session c4Packet).2)
    c4Packet "9.9.9.9:1" (by decide) (by decide) (by decide) (by decide)
    (by decide) (by decide) (by decide) (by decide)

/-! ## C2: persistence on Put -/

/-- C2: `Put` appends the message to the dialogue and appends exactly one row
to persistent storage if and only if the role is user or assistant and the
content is non-empty after trimming whitespace; system and tool messages are
never persisted; persistence is append-only, so putting the same message
twice yields two rows. -/
theorem Put_persists_iff (dm : DialogueManager) (m : ChatMessage) :
    ((dm.put m).dialogue = dm.dialogue ++ [m]) ∧
    ((dm.put m).rows = dm.rows ++ [saveMemoryRow dm.userID m] ↔
      ((m.role = "user" ∨ m.role = "assistant") ∧ goTrimSpace m.content ≠ [])) ∧
    ((m.role = "system" ∨ m.role = "tool") → (dm.put m).rows = dm.rows) ∧
    (((m.role = "user" ∨ m.role = "assistant") ∧ goTrimSpace m.content ≠ []) →
      ((dm.put m).put m).rows =
        dm.rows ++ [saveMemoryRow dm.userID m, saveMemoryRow dm.userID m]) := by
  have hne : ∀ (l : List DialogueRow) (r : DialogueRow), l ≠ l ++ [r] := by
    intro l r h
    have := congrArg List.length h
    simp at this
  refine ⟨by simp [DialogueManager.put], ?_, ?_, ?_⟩
  · by_cases hc : (m.role = "user" ∨ m.role = "assistant") ∧
        goTrimSpace m.content ≠ []
    · simp [DialogueManager.put, hc]
    · simp only [DialogueManager.put, if_neg hc]
      exact ⟨fun h => absurd h (hne dm.rows _), fun h => absurd h hc⟩
  · intro hrole
    have hc : ¬((m.role = "user" ∨ m.role = "assistant") ∧
        goTrimSpace m.content ≠ []) := by
      rcases hrole with h | h <;> rw [h] <;> simp
    simp [DialogueManager.put, hc]
  · intro hc
    simp [DialogueManager.put, hc]

theorem Put_persists_iff_witness :
    ((baseDM.put m0).put m0).rows =
      baseDM.rows ++ [saveMemoryRow baseDM.userID m0, saveMemoryRow baseDM.userID m0] :=
  (Put_persists_iff baseDM m0).2.2.2 (by decide)

/-! ## C5: exit intent -/

/-- C5: when the punctuation-stripped utterance equals a configured CMD_exit
command, `handleChatMessage` closes the session and returns at once: the talk
round is not incremented, nothing is appended to the dialogue, no TTS task is
enqueued (the pending queues are drained by Close), no frame is emitted, and
the result does not depend on the LLM continuation `gen`, so the LLM is not
called. -/
theorem handleChatMessage_exit_intent (u : TextUtils) (cfg : HConfig)
    (gen : HState → Nat → HState × List HEvent) (s : HState) (text : GoStr)
    (hne : text ≠ [])
    (hexit : cfg.cmdExit.contains (u.removeAllPunctuation text) = true)
    (hnc : s.closed = false) :
    handleChatMessage u cfg gen s text =
      ({ s with closed := true, ttsQueue := [], audioQueue := [] }, []) := by
  rw [handleChatMessage, if_neg hne, quitIntent, if_pos hexit, closeHandler,
    if_neg (by rw [hnc]; exact Bool.false_ne_true), cleanTTSAndAudioQueue]

theorem handleChatMessage_exit_intent_witness :
    handleChatMessage u0 cfg0 (fun s _ => (s, [])) baseState [113] =
      ({ baseState with closed := true, ttsQueue := [], audioQueue := [] }, []) :=
  handleChatMessage_exit_intent u0 cfg0 (fun s _ => (s, [])) baseState [113]
    (by decide) (by decide) (by decide)

/-! ## C7: quick reply on the first round -/

/-- C7: with quick_reply enabled, on the first utterance (the talk round
becomes 1) matching a wake word, `handleChatMessage` enqueues one TTS task
whose text is the processed form of a reply drawn from the configured
quick_reply_words, and returns after the stt and tts-start frames: the result
does not depend on the LLM continuation `gen` (the LLM is not called) and the
dialogue is unchanged (the utterance is not appended to memory).  The random
pick is a parameter assumed to choose from the array, as the spec states. -/
theorem handleChatMessage_quick_reply (u : TextUtils) (cfg : HConfig)
    (gen : HState → Nat → HState × List HEvent) (s : HState) (text : GoStr)
    (hqr : cfg.quickReply = true) (hr : s.talkRound = 0)
    (hwake : u.isWakeUpWord text = true) (hne : text ≠ [])
    (hnoexit : cfg.cmdExit.contains (u.removeAllPunctuation text) = false)
    (hvs : s.serverVoiceStop = false)
    (hpick : ∀ arr : List GoStr, arr ≠ [] → u.randomSelectFromArray arr ∈ arr)
    (hwords : cfg.quickReplyWords ≠ [])
    (hstrip : u.removeMarkdownSyntax (u.removeAllEmoji
      (u.randomSelectFromArray cfg.quickReplyWords)) ≠ []) :
    u.randomSelectFromArray cfg.quickReplyWords ∈ cfg.quickReplyWords ∧
    handleChatMessage u cfg gen s text =
      ({ s with
          talkRound := 1, ttsLastTextIndex := 1,
          ttsQueue := s.ttsQueue ++
            [⟨(u.removeMarkdownSyntax (u.removeAllEmoji
                (u.randomSelectFromArray cfg.quickReplyWords))).take 255, 1, 1⟩] },
       [.sttSent text, .ttsStateSent "start" [] 0]) := by
  refine ⟨hpick _ hwords, ?_⟩
  have htake : (if (u.removeMarkdownSyntax (u.removeAllEmoji
        (u.randomSelectFromArray cfg.quickReplyWords))).length > 255 then
      (u.removeMarkdownSyntax (u.removeAllEmoji
        (u.randomSelectFromArray cfg.quickReplyWords))).take 255
    else
      u.removeMarkdownSyntax (u.removeAllEmoji
        (u.randomSelectFromArray cfg.quickReplyWords))) =
      (u.removeMarkdownSyntax (u.removeAllEmoji
        (u.randomSelectFromArray cfg.quickReplyWords))).take 255 := by
    split
    · rfl
    · next h => rw [List.take_of_length_le (by omega)]
  rw [handleChatMessage, if_neg hne, quitIntent,
    if_neg (by rw [hnoexit]; exact Bool.false_ne_true)]
  dsimp only
  rw [quickReplyWakeUpWords, if_neg (by simp [hqr, hr]),
    if_neg (by simp [hwake])]
  dsimp only
  rw [speakAndPlay]
  dsimp only
  rw [if_neg hstrip, if_neg (by rw [hvs]; exact Bool.false_ne_true), htake]
  simp [hr]

theorem handleChatMessage_quick_reply_witness :
    u1.randomSelectFromArray cfg0.quickReplyWords ∈ cfg0.quickReplyWords ∧
    handleChatMessage u1 cfg0 (fun s _ => (s, [])) baseState [104] =
      ({ baseState with
          talkRound := 1, ttsLastTextIndex := 1,
          ttsQueue := baseState.ttsQueue ++
            [⟨(u1.removeMarkdownSyntax (u1.removeAllEmoji
                (u1.randomSelectFromArray cfg0.quickReplyWords))).take 255, 1, 1⟩] },
       [.sttSent [104], .ttsStateSent "start" [] 0]) :=
  handleChatMessage_quick_reply u1 cfg0 (fun s _ => (s, [])) baseState [104]
    (by decide) (by decide) (by decide) (by decide) (by decide) (by decide)
    (by intro arr h; cases arr with
        | nil => exact absurd rfl h
        | cons a l => exact List.mem_cons_self a l)
    (by decide) (by decide)

/-! ## C8: truncation before synthesis is by bytes, not characters -/

set_option maxRecDepth 100000 in
/-- C8 fails on the code as worded: `SpeakAndPlay` truncates by Go `len`,
which counts bytes, not characters.  A 100-character CJK segment occupies 300
bytes, is well under 255 characters, and is nevertheless truncated (to its
first 85 characters).  The identity text utilities `u0` make the stripping
steps transparent. -/
theorem SpeakAndPlay_truncation_counterexample :
    utf8CharCount cjkText = 100 ∧
    cjkText.length = 300 ∧
    (speakAndPlay u0 baseState cjkText 1 1).1.ttsQueue =
      [⟨cjkText.take 255, 1, 1⟩] ∧
    cjkText.take 255 ≠ cjkText := by
  refine ⟨by decide, by decide, ?_, by decide⟩
  show (speakAndPlay u0 baseState cjkText 1 1).1.ttsQueue = [⟨cjkText.take 255, 1, 1⟩]
  decide

/-- C8 amended: every text segment enqueued for synthesis by `SpeakAndPlay`
is at most 255 BYTES long; a segment longer than 255 bytes is truncated to
its first 255 bytes and a segment of at most 255 bytes is passed through
unchanged (after the emoji and Markdown stripping that precedes the length
check). -/
theorem SpeakAndPlay_truncates_to_255_bytes (u : TextUtils) (s : HState)
    (text : GoStr) (tidx : Int) (round : Nat)
    (hne : u.removeMarkdownSyntax (u.removeAllEmoji text) ≠ [])
    (hvs : s.serverVoiceStop = false) :
    (speakAndPlay u s text tidx round).1.ttsQueue =
      s.ttsQueue ++
        [⟨(u.removeMarkdownSyntax (u.removeAllEmoji text)).take 255, round, tidx⟩] ∧
    ((u.removeMarkdownSyntax (u.removeAllEmoji text)).take 255).length ≤ 255 ∧
    ((u.removeMarkdownSyntax (u.removeAllEmoji text)).length ≤ 255 →
      (u.removeMarkdownSyntax (u.removeAllEmoji text)).take 255 =
        u.removeMarkdownSyntax (u.removeAllEmoji text)) := by
  refine ⟨?_, by simp, fun h => List.take_of_length_le h⟩
  rw [speakAndPlay]
  rw [if_neg hne, if_neg (by rw [hvs]; exact Bool.false_ne_true)]
  dsimp only
  congr 1
  split
  · rfl
  · next h => rw [List.take_of_length_le (by omega)]

theorem SpeakAndPlay_truncates_to_255_bytes_witness :
    (speakAndPlay u0 baseState [104, 105] 1 1).1.ttsQueue =
      baseState.ttsQueue ++
        [⟨(u0.removeMarkdownSyntax (u0.removeAllEmoji [104, 105])).take 255, 1, 1⟩] ∧
    ((u0.removeMarkdownSyntax (u0.removeAllEmoji [104, 105])).take 255).length ≤ 255 ∧
    ((u0.removeMarkdownSyntax (u0.removeAllEmoji [104, 105])).length ≤ 255 →
      (u0.removeMarkdownSyntax (u0.removeAllEmoji [104, 105])).take 255 =
        u0.removeMarkdownSyntax (u0.removeAllEmoji [104, 105])) :=
  SpeakAndPlay_truncates_to_255_bytes u0 baseState [104, 105] 1 1
    (by decide) (by decide)

/-! ## C1: round isolation of the egress stages -/

/-- C1 fails on the code for the TTS stage: `processTTSTask` never compares
the task round with the current talk round.  A task created at round 1,
dequeued while the session is in round 2 with the barge-in flag clear, is
synthesized (the TTS provider is invoked on its text) instead of being
discarded. -/
theorem stale_tts_task_synthesized_counterexample :
    tC1.round ≠ sC1.talkRound ∧
    (processTTSTask u0 g0 cfg0 sC1 tC1).2 = [.synthCalled [104, 105]] ∧
    (processTTSTask u0 g0 cfg0 sC1 tC1).1.audioQueue =
      [⟨[102, 104, 105], [104, 105], 1, 1⟩] := by
  decide

/-- C1 amended: an audio-send task whose round differs from the current talk
round when dequeued is discarded and none of its audio bytes are written to
the transport.  A TTS task, by contrast, carries its round but the round is
never checked: when the barge-in flag is clear a stale-round TTS task is
still synthesized; the audio task it forwards keeps the stale round, so the
audio bytes are then dropped at the audio-send stage. -/
theorem round_mismatch_discarded_at_audio_send (u : TextUtils) (g : Egress)
    (cfg : HConfig) (s : HState) (t : TTSTask) (a : AudioTask) (fp : GoStr)
    (har : a.round ≠ s.talkRound) (htr : t.round ≠ s.talkRound)
    (hvs : s.serverVoiceStop = false)
    (hmiss : g.findCachedAudio t.text = [])
    (htext : u.removeAllEmoji t.text ≠ [])
    (hok : g.toTTS (u.removeAllEmoji t.text) = some fp) :
    sendAudioMessage g s a = (s, []) ∧
    HEvent.synthCalled (u.removeAllEmoji t.text) ∈ (processTTSTask u g cfg s t).2 ∧
    (processTTSTask u g cfg s t).1.audioQueue =
      s.audioQueue ++ [⟨fp, u.removeAllEmoji t.text, t.round, t.textIndex⟩] ∧
    (∀ f, HEvent.audioFrameSent f ∉ (processTTSTask u g cfg s t).2) := by
  refine ⟨by rw [sendAudioMessage, if_pos har], ?_⟩
  rw [processTTSTask, if_neg (by rw [hmiss]; simp), if_neg htext, hok]
  dsimp only
  rw [if_neg (by rw [hvs]; exact Bool.false_ne_true)]
  refine ⟨by simp, by simp, ?_⟩
  intro f
  split <;> simp

theorem round_mismatch_discarded_at_audio_send_witness :
    sendAudioMessage g0 sC1 aC1 = (sC1, []) ∧
    HEvent.synthCalled (u0.removeAllEmoji tC1.text) ∈
      (processTTSTask u0 g0 cfg0 sC1 tC1).2 ∧
    (processTTSTask u0 g0 cfg0 sC1 tC1).1.audioQueue =
      sC1.audioQueue ++
        [⟨[102, 104, 105], u0.removeAllEmoji tC1.text, tC1.round, tC1.textIndex⟩] ∧
    (∀ f, HEvent.audioFrameSent f ∉ (processTTSTask u0 g0 cfg0 sC1 tC1).2) :=
  round_mismatch_discarded_at_audio_send u0 g0 cfg0 sC1 tC1 aC1 [102, 104, 105]
    (by decide) (by decide) (by decide) (by decide) (by decide) (by decide)

/-! ## C9: the audio buffer is not always a whole number of frames -/

set_option maxRecDepth 100000 in
/-- C9 fails on the code: `processAudioWithVAD` resets `frameSize` to each
non-empty chunk length before appending, so a 640-byte chunk followed by a
300-byte chunk (both silent) leaves 940 buffered bytes with a frame size of
300 — not a whole number of frames — right after the append mutation and
still at the end of the call. -/
theorem vad_buffer_multiple_counterexample :
    (c9step1.1).audioBuffer.length = 640 ∧ (c9step1.1).frameSize = 640 ∧
    (c9step2.1).audioBuffer.length = 940 ∧ (c9step2.1).frameSize = 300 ∧
    (c9step2.1).audioBuffer.length % (c9step2.1).frameSize ≠ 0 := by
  decide

/-- Helper: `RemoveOldFrames` keeps the frame size and preserves the
whole-number-of-frames property. -/
theorem removeOldFrames_mod (v : VADState) (keep : Nat)
    (h : v.audioBuffer.length % v.frameSize = 0) :
    (v.removeOldFrames keep).frameSize = v.frameSize ∧
    (v.removeOldFrames keep).audioBuffer.length % v.frameSize = 0 := by
  unfold VADState.removeOldFrames
  split
  · next hgt =>
    refine ⟨rfl, ?_⟩
    simp only [List.length_drop]
    rcases Nat.eq_zero_or_pos v.frameSize with hfs | hfs
    · rw [hfs] at hgt
      simp at hgt
    · obtain ⟨q, hq⟩ := Nat.dvd_of_mod_eq_zero h
      rw [hq, Nat.mul_div_cancel_left q hfs] at hgt ⊢
      rw [Nat.sub_mul, Nat.mul_comm v.frameSize q,
        Nat.sub_sub_self (Nat.mul_le_mul_right _ (le_of_lt hgt))]
      exact Nat.mul_mod_left keep v.frameSize
  · exact ⟨rfl, h⟩

/-- Helper: `RemoveOldFrames` preserves the whole-number-of-frames property,
stated against the resulting frame size. -/
theorem removeOldFrames_mod2 (v : VADState) (keep : Nat)
    (h : v.audioBuffer.length % v.frameSize = 0) :
    (v.removeOldFrames keep).audioBuffer.length %
      (v.removeOldFrames keep).frameSize = 0 := by
  obtain ⟨h1, h2⟩ := removeOldFrames_mod v keep h
  rw [h1]
  exact h2

/-- Helper: after the ingest prefix the frame size equals the chunk length
and the buffer is the old buffer with the chunk appended. -/
theorem vadIngest_spec (s0 : VADState) (data : GoStr) (h : data ≠ []) :
    (vadIngest s0 data).frameSize = data.length ∧
    (vadIngest s0 data).audioBuffer = s0.audioBuffer ++ data := by
  have hlen : 0 < data.length := List.length_pos.mpr h
  unfold vadIngest VADState.addAudioData adjustFrameSize
  by_cases hc : 0 < data.length ∧ data.length ≠ s0.frameSize
  · rw [if_pos hc]
    exact ⟨rfl, rfl⟩
  · rw [if_neg hc]
    refine ⟨?_, rfl⟩
    rcases not_and_or.mp hc with h1 | h2
    · omega
    · exact (not_not.mp h2).symm

/-- C9 amended: the whole-number-of-frames invariant holds for the buffer
mutations provided each appended chunk length divides the buffered length
(in particular whenever every inbound chunk has the same size): under that
hypothesis `processAudioWithVAD` leaves the buffer a whole multiple of the
frame size, and `RemoveOldFrames` and `ClearBuffer` preserve the property
unconditionally; a chunk whose length does not divide the buffered length
breaks it. -/
theorem vad_buffer_multiple_amended (s : VADState) (frameMsIn : Int)
    (audioData : GoStr) (vo : Option Bool) (nowMs : Int)
    (hne : audioData ≠ [])
    (hdiv : s.audioBuffer.length % audioData.length = 0) :
    ((processAudioWithVAD s frameMsIn audioData vo nowMs).1).audioBuffer.length %
      ((processAudioWithVAD s frameMsIn audioData vo nowMs).1).frameSize = 0 ∧
    (∀ (v : VADState) (keep : Nat), v.audioBuffer.length % v.frameSize = 0 →
      (v.removeOldFrames keep).audioBuffer.length %
        (v.removeOldFrames keep).frameSize = 0) ∧
    (∀ v : VADState,
      (v.clearBuffer).audioBuffer.length % (v.clearBuffer).frameSize = 0) := by
  refine ⟨?_, fun v keep h => removeOldFrames_mod2 v keep h,
    fun v => by simp [VADState.clearBuffer]⟩
  obtain ⟨hfs, hbuf⟩ := vadIngest_spec s audioData hne
  have hmod : (vadIngest s audioData).audioBuffer.length %
      (vadIngest s audioData).frameSize = 0 := by
    rw [hfs, hbuf, List.length_append, Nat.add_mod_right]
    exact hdiv
  have hgen : ∀ (c : Prop) (inst : Decidable c) (X Y : VADState),
      X.audioBuffer.length % X.frameSize = 0 →
      Y.audioBuffer.length % Y.frameSize = 0 →
      (if c then X else Y).audioBuffer.length %
        (if c then X else Y).frameSize = 0 := by
    intro c inst X Y hX hY
    split <;> assumption
  simp only [processAudioWithVAD]
  split
  · exact hmod
  · split
    · simp
    · split
      · -- still-in-voice: the buffer is cleared in every subcase
        refine hgen _ _ _ _ ?_ ?_ <;> dsimp only <;>
          first
          | simp
          | (refine hgen _ _ _ _ ?_ ?_ <;> simp)
      · -- both silent: the buffer keeps old bytes plus the chunk, and old
        -- frames beyond the cap may be dropped
        dsimp only
        split <;> split <;>
          first
          | exact removeOldFrames_mod2 _ _ (by simpa using hmod)
          | simpa using hmod

set_option maxRecDepth 100000 in
/-- Witness for the amended C9: a 640-byte chunk into a fresh state. -/
theorem vad_buffer_multiple_amended_witness :
    ((processAudioWithVAD c9s0 20 (List.replicate 640 0) (some false) 0).1).audioBuffer.length %
      ((processAudioWithVAD c9s0 20 (List.replicate 640 0) (some false) 0).1).frameSize = 0 ∧
    (∀ (v : VADState) (keep : Nat), v.audioBuffer.length % v.frameSize = 0 →
      (v.removeOldFrames keep).audioBuffer.length %
        (v.removeOldFrames keep).frameSize = 0) ∧
    (∀ v : VADState,
      (v.clearBuffer).audioBuffer.length % (v.clearBuffer).frameSize = 0) :=
  vad_buffer_multiple_amended c9s0 20 (List.replicate 640 0) (some false) 0
    (by decide) (by decide)

/-! ## C6: device-id mismatch is rejected before the upgrade -/

/-- C6: a request whose token verifies (the verifier returns the claims) but
whose device_id claim differs from the effective Device-Id header is answered
with HTTP 401: the socket is never upgraded and no connection handler is
created, hence no provider is touched. -/
theorem handleWebSocket_device_mismatch_401
    (verifyToken : String → Option (String × Nat))
    (browser upgradeOk factoryPresent handlerOk : Bool) (r : WSRequest)
    (did : String) (uid : Nat)
    (hver : verifyToken
      ((injectBrowserHeaders browser r).authorizationHeader.drop 7) =
      some (did, uid))
    (hmm : (injectBrowserHeaders browser r).deviceIdHeader ≠ did) :
    handleWebSocket verifyToken browser upgradeOk factoryPresent handlerOk r =
      { httpStatus := some 401, upgraded := false, handlerCreated := false } := by
  have hauth : ∃ e, verifyJWTAuth verifyToken (injectBrowserHeaders browser r) =
      .error e := by
    unfold verifyJWTAuth
    split
    · exact ⟨_, rfl⟩
    · rw [hver]
      dsimp only
      rw [if_pos hmm]
      exact ⟨_, rfl⟩
  obtain ⟨e, he⟩ := hauth
  unfold handleWebSocket
  rw [he]

theorem handleWebSocket_device_mismatch_401_witness :
    handleWebSocket vt0 false true true true r0 =
      { httpStatus := some 401, upgraded := false, handlerCreated := false } :=
  handleWebSocket_device_mismatch_401 vt0 false true true true r0 "dev-a" 7
    (by decide) (by decide)

end DAYN
